import Mathlib

/-!
Verification of the migration idempotency rewriter
(`transform-baseline.py`): a line-oriented transformer that rewrites a
SQL schema-migration file into an idempotent variant.  The Python
source is embedded shallowly: lines are `String`s (lists of `Char`
underneath), the scanning loop becomes a structurally recursive
function over the list of lines, and Python string primitives
(`strip`, `startswith`, `in`, `replace`, the two regexes) are
reimplemented as executable functions over `List Char`.
-/

namespace BaselineTransform

/-- ASCII whitespace stripped by Python `str.strip()` (the inputs are
ASCII SQL text; non-ASCII Unicode whitespace does not occur in them,
and a line never contains a newline). -/
def isPyWs (c : Char) : Bool :=
  c = ' ' || c = '\t' || c = '\n' || c = '\r' || c = '\x0b' || c = '\x0c'

/-- Python `s.strip()` on a list of characters. -/
def pyStripL (l : List Char) : List Char :=
  ((l.dropWhile isPyWs).reverse.dropWhile isPyWs).reverse

/-- Python `s.startswith(pat)`: `isPrefixL pat s` is true iff `pat` is
a prefix of `s`. -/
def isPrefixL : List Char → List Char → Bool
  | [], _ => true
  | _ :: _, [] => false
  | p :: ps, c :: cs => if p = c then isPrefixL ps cs else false

/-- Python `pat in s`: substring occurrence test. -/
def hasSubL (pat : List Char) : List Char → Bool
  | [] => isPrefixL pat []
  | c :: cs => isPrefixL pat (c :: cs) || hasSubL pat cs

/-- Python `s.replace(pat, rep)` for a non-empty `pat`: replace every
non-overlapping occurrence, scanning left to right, never rescanning
the replacement text.  `fuel` bounds the recursion; each step consumes
at least one character, so `fuel = s.length` is always enough. -/
def replF (pat rep : List Char) : Nat → List Char → List Char
  | _, [] => []
  | 0, s => s
  | Nat.succ f, c :: cs =>
    if isPrefixL pat (c :: cs) then
      rep ++ replF pat rep f (List.drop pat.length (c :: cs))
    else
      c :: replF pat rep f cs

def enumMarkL : List Char := "-- CreateEnum".toList
def tableMarkL : List Char := "-- CreateTable".toList
def idxMarkL : List Char := "-- CreateIndex".toList

def tblPatL : List Char := "CREATE TABLE ".toList
def tblRepL : List Char := "CREATE TABLE IF NOT EXISTS ".toList
def extPatL : List Char := "CREATE EXTENSION ".toList
def extRepL : List Char := "CREATE EXTENSION IF NOT EXISTS ".toList
def uIdxL : List Char := "CREATE UNIQUE INDEX ".toList
def uIdxRepL : List Char := "CREATE UNIQUE INDEX IF NOT EXISTS ".toList
def pIdxL : List Char := "CREATE INDEX ".toList
def pIdxRepL : List Char := "CREATE INDEX IF NOT EXISTS ".toList

/-- Python `re.sub(r'CREATE (UNIQUE )?INDEX ', r'CREATE \1INDEX IF NOT EXISTS ', s)`:
scan left to right; at each position try to match `CREATE UNIQUE INDEX `
(the optional group is greedy) and then `CREATE INDEX `; on a match,
emit the rewritten keyword and continue after the matched text. -/
def subIdxF : Nat → List Char → List Char
  | _, [] => []
  | 0, s => s
  | Nat.succ f, c :: cs =>
    if isPrefixL uIdxL (c :: cs) then
      uIdxRepL ++ subIdxF f (List.drop uIdxL.length (c :: cs))
    else if isPrefixL pIdxL (c :: cs) then
      pIdxRepL ++ subIdxF f (List.drop pIdxL.length (c :: cs))
    else
      c :: subIdxF f cs

/-- Splits off the value list before the LAST occurrence of `);`,
mirroring the greedy `(.*)\);` tail of the enum regex (the regex is
anchored at the start only, so any tail after the last `);` is
ignored).  Returns `none` when `);` does not occur. -/
def lastParenSplit : List Char → Option (List Char)
  | [] => none
  | c :: cs =>
    match lastParenSplit cs with
    | some v => some (c :: v)
    | none =>
      match c, cs with
      | ')', ';' :: _ => some []
      | _, _ => none

def ctPrefL : List Char := "CREATE TYPE \"".toList
def asEnumL : List Char := "\" AS ENUM (".toList

/-- Python `re.match(r'CREATE TYPE "([^\x22]+)" AS ENUM \((.*)\);', line)`:
anchored at the start; the name is one or more non-quote characters;
the greedy `(.*)` captures everything up to the last `);`.  Returns
the captured (name, values) on success. -/
def enumMatch (s : String) : Option (String × String) :=
  let cl := s.toList
  if isPrefixL ctPrefL cl then
    let r1 := cl.drop ctPrefL.length
    let name := r1.takeWhile (fun c => c ≠ '"')
    let r2 := r1.drop name.length
    if name ≠ [] ∧ isPrefixL asEnumL r2 then
      match lastParenSplit (r2.drop asEnumL.length) with
      | some v => some (⟨name⟩, ⟨v⟩)
      | none => none
    else none
  else none

/-- The eight output lines emitted for a recognized enum creation. -/
def enumBlock (n v : String) : List String :=
  [ "-- CreateEnum " ++ n
  , "DO $$"
  , "BEGIN"
  , "  IF NOT EXISTS (SELECT 1 FROM pg_type WHERE typname = '" ++ n ++ "') THEN"
  , "    CREATE TYPE \"" ++ n ++ "\" AS ENUM (" ++ v ++ ");"
  , "  END IF;"
  , "END $$;"
  , "" ]

/-- The table branch body: `create_line.replace('CREATE TABLE ', ...)`
guarded by `create_line.startswith('CREATE TABLE ')`. -/
def tableRw (s : String) : String :=
  if isPrefixL tblPatL s.toList then
    ⟨replF tblPatL tblRepL s.toList.length s.toList⟩
  else s

/-- The index branch body: the `re.sub` guarded by the substring test
`'CREATE INDEX ' in line or 'CREATE UNIQUE INDEX ' in line`. -/
def idxRw (s : String) : String :=
  if hasSubL pIdxL s.toList || hasSubL uIdxL s.toList then
    ⟨subIdxF s.toList.length s.toList⟩
  else s

/-- The extension branch body: `line.replace('CREATE EXTENSION ', ...)`
(applied to the raw, unstripped line). -/
def extRw (s : String) : String :=
  ⟨replF extPatL extRepL s.toList.length s.toList⟩

/-- The scanning loop of the script, as a function from input lines to
output lines (the prepended header element is handled separately).
Faithful points: a `-- CreateEnum` marker is never itself emitted — on
a regex match the eight-line block replaces the pair, on a failed
match (or at end of input) the cursor has already moved past the
marker and scanning resumes at the following line; the table and
index markers are emitted before their lookahead line is inspected. -/
def transform : List String → List String
  | [] => []
  | [l] =>
    if pyStripL l.toList = enumMarkL then []
    else if pyStripL l.toList = tableMarkL then [l]
    else if pyStripL l.toList = idxMarkL then [l]
    else if isPrefixL extPatL (pyStripL l.toList) then [extRw l]
    else [l]
  | l :: c :: rest =>
    if pyStripL l.toList = enumMarkL then
      match enumMatch c with
      | some nv => enumBlock nv.1 nv.2 ++ transform rest
      | none => transform (c :: rest)
    else if pyStripL l.toList = tableMarkL then
      l :: tableRw c :: transform rest
    else if pyStripL l.toList = idxMarkL then
      l :: idxRw c :: transform rest
    else if isPrefixL extPatL (pyStripL l.toList) then
      extRw l :: transform (c :: rest)
    else
      l :: transform (c :: rest)

/-- Python `content.split('\n')` on characters: always returns at
least one (possibly empty) group. -/
def splitNlL : List Char → List (List Char)
  | [] => [[]]
  | c :: cs =>
    if c = '\n' then [] :: splitNlL cs
    else
      match splitNlL cs with
      | [] => [[c]]
      | g :: gs => (c :: g) :: gs

def splitNl (s : String) : List String :=
  (splitNlL s.toList).map (fun l => ⟨l⟩)

/-- Python `'\n'.join(out)`. -/
def joinNl : List String → String
  | [] => ""
  | [s] => s
  | s :: rest => s ++ "\n" ++ joinNl rest

/-- The fixed header element appended to the output buffer before the
loop runs (a single multi-line string). -/
def headerStr : String :=
  "-- Baseline Repair Migration\n-- This migration creates the full schema from scratch in an idempotent way.\n-- It can run on empty databases or databases that already have the schema.\n\n-- Enable required extensions\nCREATE EXTENSION IF NOT EXISTS citext;\n\n"

def outPath : String := "/tmp/baseline-repair-idempotent.sql"

/-- The full output buffer for a given input file content. -/
def outputList (content : String) : List String :=
  headerStr :: transform (splitNl content)

/-- The text written to the output file: `'\n'.join(output)`. -/
def fileText (content : String) : String :=
  joinNl (outputList content)

/-- The two status lines printed to standard output. -/
def stdoutLines (content : String) : List String :=
  [ "Transformation complete: " ++ outPath
  , "Lines: " ++ Nat.repr (outputList content).length ]

/-- A whole run of the script as a pure function of the input file
content: the output file text together with the standard output. -/
def runModel (content : String) : String × List String :=
  (fileText content, stdoutLines content)

/-! ### Helper lemmas about the string primitives -/

theorem isPrefixL_append_self (p t : List Char) : isPrefixL p (p ++ t) = true := by
  induction p with
  | nil => rfl
  | cons c cs ih => simp [isPrefixL, ih]

theorem hasSubL_of_isPrefixL {pat s : List Char} (h : isPrefixL pat s = true) :
    hasSubL pat s = true := by
  cases s with
  | nil => simpa [hasSubL] using h
  | cons c cs => simp [hasSubL, h]

theorem hasSubL_cons_false {pat : List Char} {c : Char} {cs : List Char}
    (h : hasSubL pat (c :: cs) = false) :
    isPrefixL pat (c :: cs) = false ∧ hasSubL pat cs = false := by
  simpa [hasSubL, Bool.or_eq_false_iff] using h

theorem replF_no_occ (pat rep : List Char) :
    ∀ (f : Nat) (s : List Char), hasSubL pat s = false → replF pat rep f s = s := by
  intro f
  induction f with
  | zero => intro s _; cases s <;> simp [replF]
  | succ f ih =>
    intro s hs
    cases s with
    | nil => simp [replF]
    | cons c cs =>
      obtain ⟨h1, h2⟩ := hasSubL_cons_false hs
      simp [replF, h1, ih cs h2]

theorem subIdxF_no_occ :
    ∀ (f : Nat) (s : List Char), hasSubL uIdxL s = false → hasSubL pIdxL s = false →
      subIdxF f s = s := by
  intro f
  induction f with
  | zero => intro s _ _; cases s <;> simp [subIdxF]
  | succ f ih =>
    intro s hu hp
    cases s with
    | nil => simp [subIdxF]
    | cons c cs =>
      obtain ⟨hu1, hu2⟩ := hasSubL_cons_false hu
      obtain ⟨hp1, hp2⟩ := hasSubL_cons_false hp
      simp [subIdxF, hu1, hp1, ih cs hu2 hp2]

theorem replF_tbl_head (f : Nat) (t : List Char) :
    replF tblPatL tblRepL (Nat.succ f) (tblPatL ++ t) = tblRepL ++ replF tblPatL tblRepL f t := rfl

theorem replF_ext_head (f : Nat) (t : List Char) :
    replF extPatL extRepL (Nat.succ f) (extPatL ++ t) = extRepL ++ replF extPatL extRepL f t := rfl

theorem subIdxF_uniq_head (f : Nat) (t : List Char) :
    subIdxF (Nat.succ f) (uIdxL ++ t) = uIdxRepL ++ subIdxF f t := rfl

theorem subIdxF_plain_head (f : Nat) (t : List Char) :
    subIdxF (Nat.succ f) (pIdxL ++ t) = pIdxRepL ++ subIdxF f t := rfl

/-! ### The spec-side pass-through invariant (claim C1)

`RewriteSpec input output` is modelled from the spec's words, not from
the source: the output is obtained from the input by repeatedly either
copying one line verbatim, or applying one of the four marker-specific
rules (enum, table, index, extension) to one or two consecutive input
lines.  No input line is dropped or duplicated and the relative order
of all content is preserved. -/
inductive RewriteSpec : List String → List String → Prop
  | nil : RewriteSpec [] []
  | copy (l : String) {rest out : List String} :
      RewriteSpec rest out → RewriteSpec (l :: rest) (l :: out)
  | enum (l c : String) {n v : String} {rest out : List String} :
      pyStripL l.toList = enumMarkL → enumMatch c = some (n, v) →
      RewriteSpec rest out → RewriteSpec (l :: c :: rest) (enumBlock n v ++ out)
  | table (l c : String) {rest out : List String} :
      pyStripL l.toList = tableMarkL →
      RewriteSpec rest out → RewriteSpec (l :: c :: rest) (l :: tableRw c :: out)
  | index (l c : String) {rest out : List String} :
      pyStripL l.toList = idxMarkL →
      RewriteSpec rest out → RewriteSpec (l :: c :: rest) (l :: idxRw c :: out)
  | ext (l : String) {rest out : List String} :
      isPrefixL extPatL (pyStripL l.toList) = true →
      RewriteSpec rest out → RewriteSpec (l :: rest) (extRw l :: out)

/-- Every `-- CreateEnum` marker line is immediately followed by a
line matching the `CREATE TYPE ... AS ENUM (...)` pattern. -/
def goodEnums : List String → Bool
  | [] => true
  | [l] => !(pyStripL l.toList = enumMarkL : Bool)
  | l :: c :: rest =>
    (!(pyStripL l.toList = enumMarkL : Bool) || !(enumMatch c).isNone) && goodEnums (c :: rest)

theorem goodEnums_tail {x : String} {xs : List String}
    (h : goodEnums (x :: xs) = true) : goodEnums xs = true := by
  cases xs with
  | nil => rfl
  | cons y ys => exact (Bool.and_eq_true_iff.mp h).2

/-! ### The index-based loop (claim C8)

`runFrom lines fuel i` replays the `while i < len(lines)` loop of the
script starting at cursor `i`, reading the line sequence only through
`lines[i]?` and only after the same bound checks the source performs;
a read that misses (`none`) aborts the whole run with `none`,
modelling an out-of-bounds indexing fault.  `fuel` bounds the number
of loop iterations; each iteration advances the cursor by at least
one, so `lines.length` iterations always suffice. -/
def runFrom (lines : List String) : Nat → Nat → Option (List String)
  | 0, i => if lines.length ≤ i then some [] else none
  | Nat.succ f, i =>
    if lines.length ≤ i then some []
    else
      match lines[i]? with
      | none => none
      | some line =>
        if pyStripL line.toList = enumMarkL then
          if i + 1 < lines.length then
            match lines[i + 1]? with
            | none => none
            | some c =>
              match enumMatch c with
              | some nv => Option.map (fun out => enumBlock nv.1 nv.2 ++ out) (runFrom lines f (i + 2))
              | none => runFrom lines f (i + 1)
          else runFrom lines f (i + 1)
        else if pyStripL line.toList = tableMarkL then
          if i + 1 < lines.length then
            match lines[i + 1]? with
            | none => none
            | some c => Option.map (fun out => line :: tableRw c :: out) (runFrom lines f (i + 2))
          else Option.map (fun out => line :: out) (runFrom lines f (i + 1))
        else if pyStripL line.toList = idxMarkL then
          if i + 1 < lines.length then
            match lines[i + 1]? with
            | none => none
            | some c => Option.map (fun out => line :: idxRw c :: out) (runFrom lines f (i + 2))
          else Option.map (fun out => line :: out) (runFrom lines f (i + 1))
        else if isPrefixL extPatL (pyStripL line.toList) then
          Option.map (fun out => extRw line :: out) (runFrom lines f (i + 1))
        else
          Option.map (fun out => line :: out) (runFrom lines f (i + 1))

/-! ### Unfolding lemmas for `transform` -/

theorem strip_ext_ne_marks {s : List Char} (h : isPrefixL extPatL s = true) :
    s ≠ enumMarkL ∧ s ≠ tableMarkL ∧ s ≠ idxMarkL := by
  refine ⟨?_, ?_, ?_⟩ <;> rintro rfl <;> exact absurd h (by decide)

theorem transform_cons_enum_some {l c n v : String} {rest : List String}
    (h : pyStripL l.toList = enumMarkL) (hm : enumMatch c = some (n, v)) :
    transform (l :: c :: rest) = enumBlock n v ++ transform rest := by
  have h' : pyStripL l.data = enumMarkL := h
  simp [transform, h', hm]

theorem transform_cons_enum_none {l c : String} {rest : List String}
    (h : pyStripL l.toList = enumMarkL) (hm : enumMatch c = none) :
    transform (l :: c :: rest) = transform (c :: rest) := by
  have h' : pyStripL l.data = enumMarkL := h
  simp [transform, h', hm]

theorem tableMark_ne_enumMark : tableMarkL ≠ enumMarkL := by decide

theorem idxMark_ne_enumMark : idxMarkL ≠ enumMarkL := by decide

theorem idxMark_ne_tableMark : idxMarkL ≠ tableMarkL := by decide

theorem transform_cons_table {l c : String} {rest : List String}
    (h : pyStripL l.toList = tableMarkL) :
    transform (l :: c :: rest) = l :: tableRw c :: transform rest := by
  have h' : pyStripL l.data = tableMarkL := h
  simp [transform, h', tableMark_ne_enumMark]

theorem transform_cons_idx {l c : String} {rest : List String}
    (h : pyStripL l.toList = idxMarkL) :
    transform (l :: c :: rest) = l :: idxRw c :: transform rest := by
  have h' : pyStripL l.data = idxMarkL := h
  simp [transform, h', idxMark_ne_enumMark, idxMark_ne_tableMark]

theorem transform_cons_ext {l : String} {tail : List String}
    (h : isPrefixL extPatL (pyStripL l.toList) = true) :
    transform (l :: tail) = extRw l :: transform tail := by
  obtain ⟨h1, h2, h3⟩ := strip_ext_ne_marks (s := pyStripL l.data) h
  have h' : isPrefixL extPatL (pyStripL l.data) = true := h
  cases tail with
  | nil => simp [transform, h', h1, h2, h3]
  | cons c r => simp [transform, h', h1, h2, h3]

theorem transform_cons_default {l : String} {tail : List String}
    (h1 : pyStripL l.toList ≠ enumMarkL) (h2 : pyStripL l.toList ≠ tableMarkL)
    (h3 : pyStripL l.toList ≠ idxMarkL)
    (h4 : isPrefixL extPatL (pyStripL l.toList) = false) :
    transform (l :: tail) = l :: transform tail := by
  have h1' : pyStripL l.data ≠ enumMarkL := h1
  have h2' : pyStripL l.data ≠ tableMarkL := h2
  have h3' : pyStripL l.data ≠ idxMarkL := h3
  have h4' : isPrefixL extPatL (pyStripL l.data) = false := h4
  cases tail with
  | nil => simp [transform, h1', h2', h3', h4']
  | cons c r => simp [transform, h1', h2', h3', h4']

/-! ### The index-based loop agrees with `transform` and never reads
out of bounds -/

theorem runFrom_eq (lines : List String) :
    ∀ (f i : Nat), lines.length ≤ f + i →
      runFrom lines f i = some (transform (lines.drop i)) := by
  intro f
  induction f with
  | zero =>
    intro i hle
    simp only [Nat.zero_add] at hle
    simp [runFrom, tableMark_ne_enumMark, idxMark_ne_enumMark, idxMark_ne_tableMark, hle, List.drop_eq_nil_of_le hle, transform]
  | succ f ih =>
    intro i hle
    by_cases hi : lines.length ≤ i
    · simp [runFrom, tableMark_ne_enumMark, idxMark_ne_enumMark, idxMark_ne_tableMark, hi, List.drop_eq_nil_of_le hi, transform]
    · have hi' : i < lines.length := Nat.lt_of_not_le hi
      have hget : lines[i]? = some lines[i] := List.getElem?_eq_getElem hi'
      have hdrop : lines.drop i = lines[i] :: lines.drop (i + 1) :=
        List.drop_eq_getElem_cons hi'
      have hnext : lines.length ≤ f + (i + 1) := by omega
      by_cases hb : i + 1 < lines.length
      · have hget2 : lines[i + 1]? = some lines[i + 1] := List.getElem?_eq_getElem hb
        have hdrop2 : lines.drop (i + 1) = lines[i + 1] :: lines.drop (i + 2) :=
          List.drop_eq_getElem_cons hb
        have hnext2 : lines.length ≤ f + (i + 2) := by omega
        by_cases he : pyStripL (lines[i]).data = enumMarkL
        · cases hm : enumMatch lines[i + 1] with
          | some nv =>
            rw [hdrop, hdrop2, transform_cons_enum_some he hm]
            simp [runFrom, tableMark_ne_enumMark, idxMark_ne_enumMark, idxMark_ne_tableMark, hi, hget, he, hb, hget2, hm, ih (i + 2) hnext2]
          | none =>
            rw [hdrop, hdrop2, transform_cons_enum_none he hm, ← hdrop2]
            simp [runFrom, tableMark_ne_enumMark, idxMark_ne_enumMark, idxMark_ne_tableMark, hi, hget, he, hb, hget2, hm, ih (i + 1) hnext]
        · by_cases ht : pyStripL (lines[i]).data = tableMarkL
          · rw [hdrop, hdrop2, transform_cons_table ht]
            simp [runFrom, tableMark_ne_enumMark, idxMark_ne_enumMark, idxMark_ne_tableMark, hi, hget, he, ht, hb, hget2, ih (i + 2) hnext2]
          · by_cases hx : pyStripL (lines[i]).data = idxMarkL
            · rw [hdrop, hdrop2, transform_cons_idx hx]
              simp [runFrom, tableMark_ne_enumMark, idxMark_ne_enumMark, idxMark_ne_tableMark, hi, hget, he, ht, hx, hb, hget2, ih (i + 2) hnext2]
            · by_cases hev : isPrefixL extPatL (pyStripL (lines[i]).data) = true
              · rw [hdrop, transform_cons_ext hev]
                simp [runFrom, tableMark_ne_enumMark, idxMark_ne_enumMark, idxMark_ne_tableMark, hi, hget, he, ht, hx, hev, ih (i + 1) hnext]
              · have hev' : isPrefixL extPatL (pyStripL (lines[i]).data) = false :=
                  Bool.eq_false_iff.mpr hev
                rw [hdrop, transform_cons_default he ht hx hev']
                simp [runFrom, tableMark_ne_enumMark, idxMark_ne_enumMark, idxMark_ne_tableMark, hi, hget, he, ht, hx, hev', ih (i + 1) hnext]
      · have hb' : lines.length ≤ i + 1 := Nat.le_of_not_lt hb
        have hdrop1 : lines.drop (i + 1) = [] := List.drop_eq_nil_of_le hb'
        by_cases he : pyStripL (lines[i]).data = enumMarkL
        · rw [hdrop, hdrop1]
          simp [runFrom, tableMark_ne_enumMark, idxMark_ne_enumMark, idxMark_ne_tableMark, hi, hget, he, hb, ih (i + 1) hnext, hdrop1, transform]
        · by_cases ht : pyStripL (lines[i]).data = tableMarkL
          · rw [hdrop, hdrop1]
            simp [runFrom, tableMark_ne_enumMark, idxMark_ne_enumMark, idxMark_ne_tableMark, hi, hget, he, ht, hb, ih (i + 1) hnext, hdrop1, transform]
          · by_cases hx : pyStripL (lines[i]).data = idxMarkL
            · rw [hdrop, hdrop1]
              simp [runFrom, tableMark_ne_enumMark, idxMark_ne_enumMark, idxMark_ne_tableMark, hi, hget, he, ht, hx, hb, ih (i + 1) hnext, hdrop1, transform]
            · by_cases hev : isPrefixL extPatL (pyStripL (lines[i]).data) = true
              · rw [hdrop, hdrop1, transform_cons_ext hev]
                simp [runFrom, tableMark_ne_enumMark, idxMark_ne_enumMark, idxMark_ne_tableMark, hi, hget, he, ht, hx, hev, ih (i + 1) hnext, hdrop1, transform]
              · have hev' : isPrefixL extPatL (pyStripL (lines[i]).data) = false :=
                  Bool.eq_false_iff.mpr hev
                rw [hdrop, hdrop1, transform_cons_default he ht hx hev']
                simp [runFrom, tableMark_ne_enumMark, idxMark_ne_enumMark, idxMark_ne_tableMark, hi, hget, he, ht, hx, hev', ih (i + 1) hnext, hdrop1, transform]

/-! ### `transform` realises the spec invariant on well-formed inputs -/

theorem rewriteSpec_aux :
    ∀ (n : Nat) (lines : List String), lines.length ≤ n → goodEnums lines = true →
      RewriteSpec lines (transform lines) := by
  intro n
  induction n with
  | zero =>
    intro lines hl _
    have : lines = [] := List.eq_nil_of_length_eq_zero (Nat.le_zero.mp hl)
    subst this
    exact RewriteSpec.nil
  | succ n ih =>
    intro lines hl hg
    rcases lines with _ | ⟨l, _ | ⟨c, rest⟩⟩
    · exact RewriteSpec.nil
    · have he : pyStripL l.data ≠ enumMarkL := by
        intro hcon
        have : (!(pyStripL l.toList = enumMarkL : Bool)) = true := hg
        rw [show pyStripL l.toList = pyStripL l.data from rfl] at this
        simp [hcon] at this
      by_cases ht : pyStripL l.data = tableMarkL
      · have : transform [l] = [l] := by
          simp [transform, he, ht, tableMark_ne_enumMark]
        rw [this]
        exact RewriteSpec.copy l RewriteSpec.nil
      · by_cases hx : pyStripL l.data = idxMarkL
        · have : transform [l] = [l] := by
            simp [transform, he, ht, hx, idxMark_ne_enumMark]
          rw [this]
          exact RewriteSpec.copy l RewriteSpec.nil
        · by_cases hev : isPrefixL extPatL (pyStripL l.data) = true
          · have : transform [l] = [extRw l] := by simp [transform, he, ht, hx, hev]
            rw [this]
            exact RewriteSpec.ext l hev RewriteSpec.nil
          · have hev' : isPrefixL extPatL (pyStripL l.data) = false :=
              Bool.eq_false_iff.mpr hev
            have : transform [l] = [l] := by simp [transform, he, ht, hx, hev']
            rw [this]
            exact RewriteSpec.copy l RewriteSpec.nil
    · obtain ⟨hg1, hg2⟩ := Bool.and_eq_true_iff.mp hg
      have hlen2 : rest.length ≤ n := by
        have := hl
        simp [List.length_cons] at this
        omega
      have hlen1 : (c :: rest).length ≤ n := by
        have := hl
        simp [List.length_cons] at this ⊢
        omega
      have hgrest : goodEnums rest = true := goodEnums_tail hg2
      by_cases he : pyStripL l.data = enumMarkL
      · cases hm : enumMatch c with
        | some nv =>
          rw [transform_cons_enum_some he hm]
          exact RewriteSpec.enum l c he hm (ih rest hlen2 hgrest)
        | none =>
          exfalso
          have hd : (decide (pyStripL l.toList = enumMarkL)) = true := decide_eq_true he
          have : (!(decide (pyStripL l.toList = enumMarkL)) || !(enumMatch c).isNone) = true := hg1
          rw [hd, hm] at this
          simp at this
      · by_cases ht : pyStripL l.data = tableMarkL
        · rw [transform_cons_table ht]
          exact RewriteSpec.table l c ht (ih rest hlen2 hgrest)
        · by_cases hx : pyStripL l.data = idxMarkL
          · rw [transform_cons_idx hx]
            exact RewriteSpec.index l c hx (ih rest hlen2 hgrest)
          · by_cases hev : isPrefixL extPatL (pyStripL l.data) = true
            · rw [transform_cons_ext hev]
              exact RewriteSpec.ext l hev (ih (c :: rest) hlen1 hg2)
            · have hev' : isPrefixL extPatL (pyStripL l.data) = false :=
                Bool.eq_false_iff.mpr hev
              rw [transform_cons_default he ht hx hev']
              exact RewriteSpec.copy l (ih (c :: rest) hlen1 hg2)

/-! ### Claim C1 -/

/-- C1 (counterexample): the pass-through invariant fails as stated.
On the input consisting of the single line `-- CreateEnum` the scanner
advances past the marker without emitting it, so the output is empty:
the marker line is dropped, and no derivation of the spec-side
rewrite relation can produce that output. -/
theorem c1_invariant_fails_on_dangling_enum_marker :
    transform ["-- CreateEnum"] = [] ∧
      ¬ RewriteSpec ["-- CreateEnum"] (transform ["-- CreateEnum"]) := by
  refine ⟨rfl, ?_⟩
  intro h
  have h2 : RewriteSpec ["-- CreateEnum"] [] := h
  cases h2

/-- C1 (amended): every line of the input is either consumed by one of
the four marker-specific rules or copied verbatim, with no line
dropped or duplicated and order preserved — provided every line whose
trimmed form is `-- CreateEnum` is immediately followed by a line
matching the `CREATE TYPE ... AS ENUM (...)` pattern.  (Without that
proviso the `-- CreateEnum` marker line itself is dropped from the
output.) -/
theorem c1_passthrough_invariant (lines : List String)
    (h : goodEnums lines = true) : RewriteSpec lines (transform lines) :=
  rewriteSpec_aux lines.length lines le_rfl h

/-- C1 witness: the amended invariant holds on a concrete four-line
input exercising the enum and table rules. -/
theorem c1_passthrough_invariant_witness :
    RewriteSpec
      [ "-- CreateEnum", "CREATE TYPE \"Role\" AS ENUM ('ADMIN', 'USER');"
      , "-- CreateTable", "CREATE TABLE \"User\" (\"id\" SERIAL PRIMARY KEY);" ]
      (transform
        [ "-- CreateEnum", "CREATE TYPE \"Role\" AS ENUM ('ADMIN', 'USER');"
        , "-- CreateTable", "CREATE TABLE \"User\" (\"id\" SERIAL PRIMARY KEY);" ]) :=
  c1_passthrough_invariant _ (by decide)

/-! ### Claim C2 -/

/-- C2 (counterexample): when `-- CreateEnum` is followed by a line
that does not match the pattern, the pair is NOT passed through
verbatim: the marker line disappears from the output entirely. -/
theorem c2_pair_not_passed_through :
    transform ["-- CreateEnum", "not a valid create type"]
        = ["not a valid create type"] ∧
      "-- CreateEnum" ∉ transform ["-- CreateEnum", "not a valid create type"] := by
  refine ⟨rfl, ?_⟩
  decide

/-- C2 (amended): when a `-- CreateEnum` marker line is followed by a
line on which the enum pattern fails, the marker line is dropped (it
is never emitted) and processing restarts at the following line, whose
fate is whatever the generic rules yield for it. -/
theorem c2_malformed_enum_marker_dropped (l c : String) (rest : List String)
    (h : pyStripL l.toList = enumMarkL) (hm : enumMatch c = none) :
    transform (l :: c :: rest) = transform (c :: rest) :=
  transform_cons_enum_none h hm

/-- C2 witness: concrete instance of the amended behaviour. -/
theorem c2_malformed_enum_marker_dropped_witness :
    transform ["-- CreateEnum", "SELECT 1;", "tail line"]
      = transform ["SELECT 1;", "tail line"] :=
  c2_malformed_enum_marker_dropped "-- CreateEnum" "SELECT 1;" ["tail line"]
    (by decide) (by decide)

/-! ### Claim C3 -/

set_option maxRecDepth 20000 in
/-- C3: on the six-line sample input the transformation produces,
after the fixed header element, the guarded `DO $$` enum block for
`Role`, then the table marker with `CREATE TABLE IF NOT EXISTS`, then
the index marker with `CREATE UNIQUE INDEX IF NOT EXISTS`. -/
theorem c3_sample_scenario :
    outputList ("-- CreateEnum\nCREATE TYPE \"Role\" AS ENUM ('ADMIN', 'USER');\n-- CreateTable\nCREATE TABLE \"User\" (\"id\" SERIAL PRIMARY KEY);\n-- CreateIndex\nCREATE UNIQUE INDEX \"User_email_key\" ON \"User\"(\"email\");")
      = headerStr ::
        [ "-- CreateEnum Role"
        , "DO $$"
        , "BEGIN"
        , "  IF NOT EXISTS (SELECT 1 FROM pg_type WHERE typname = 'Role') THEN"
        , "    CREATE TYPE \"Role\" AS ENUM ('ADMIN', 'USER');"
        , "  END IF;"
        , "END $$;"
        , ""
        , "-- CreateTable"
        , "CREATE TABLE IF NOT EXISTS \"User\" (\"id\" SERIAL PRIMARY KEY);"
        , "-- CreateIndex"
        , "CREATE UNIQUE INDEX IF NOT EXISTS \"User_email_key\" ON \"User\"(\"email\");" ] := by
  decide

/-! ### Claim C4 -/

theorem isPrefixL_self (p : List Char) : isPrefixL p p = true := by
  have h := isPrefixL_append_self p []
  simpa using h

/-- Builds a `String` equality from the underlying character lists. -/
theorem mk_eq_append {lit t : String} {A : List Char}
    (hA : A = lit.data ++ t.data) : (⟨A⟩ : String) = lit ++ t :=
  String.ext (hA.trans (String.data_append lit t).symm)

set_option maxRecDepth 20000 in
/-- C4 (counterexample): the header statement claimed by the spec,
`ENABLE EXTENSION IF NOT EXISTS citext`, appears nowhere in the output:
for the empty input the whole output file text lacks that substring. -/
theorem c4_no_enable_extension_statement :
    hasSubL "ENABLE EXTENSION IF NOT EXISTS citext".toList (fileText "").toList
      = false := by
  decide

set_option maxRecDepth 20000 in
/-- C4 (amended): for every input the output file text begins with the
fixed header element, which contains the statement
`CREATE EXTENSION IF NOT EXISTS citext;` (not `ENABLE EXTENSION ...`),
before any processed input line. -/
theorem c4_header_emission (content : String) :
    isPrefixL headerStr.toList (fileText content).toList = true ∧
    hasSubL "CREATE EXTENSION IF NOT EXISTS citext;".toList headerStr.toList = true ∧
    hasSubL "ENABLE EXTENSION".toList headerStr.toList = false := by
  refine ⟨?_, by decide, by decide⟩
  show isPrefixL headerStr.data
    (joinNl (headerStr :: transform (splitNl content))).data = true
  cases h : transform (splitNl content) with
  | nil =>
    exact isPrefixL_self headerStr.data
  | cons r rs =>
    show isPrefixL headerStr.data ((headerStr ++ "\n" ++ joinNl (r :: rs))).data = true
    rw [String.data_append, String.data_append, List.append_assoc]
    exact isPrefixL_append_self _ _

/-! ### Claim C5 -/

set_option maxRecDepth 20000 in
/-- C5 (counterexample): the table rewrite is Python `str.replace`,
which replaces EVERY occurrence of `CREATE TABLE `, not only the
prefix; a second occurrence inside the line body is rewritten too, so
the remainder of the line is not left unchanged. -/
theorem c5_replace_hits_all_occurrences :
    transform ["-- CreateTable", "CREATE TABLE \"N\" (\"c\" TEXT DEFAULT 'CREATE TABLE x');"]
        = ["-- CreateTable", "CREATE TABLE IF NOT EXISTS \"N\" (\"c\" TEXT DEFAULT 'CREATE TABLE IF NOT EXISTS x');"] ∧
      "CREATE TABLE IF NOT EXISTS \"N\" (\"c\" TEXT DEFAULT 'CREATE TABLE x');"
        ∉ transform ["-- CreateTable", "CREATE TABLE \"N\" (\"c\" TEXT DEFAULT 'CREATE TABLE x');"] := by
  exact ⟨by decide, by decide⟩

/-- C5 (amended): when a `-- CreateTable` marker line is scanned
directly and the following line starts with `CREATE TABLE `, the
prefix is replaced by `CREATE TABLE IF NOT EXISTS ` and — provided no
further occurrence of `CREATE TABLE ` appears in the remainder — the
remainder is unchanged (the code replaces every occurrence); a
following line not starting with that prefix is emitted unchanged. -/
theorem c5_table_rewrite (l c : String) (rest : List String)
    (h : pyStripL l.toList = tableMarkL) :
    (∀ t : String, c = "CREATE TABLE " ++ t → hasSubL tblPatL t.toList = false →
        transform (l :: c :: rest)
          = l :: ("CREATE TABLE IF NOT EXISTS " ++ t) :: transform rest) ∧
    (isPrefixL tblPatL c.toList = false →
        transform (l :: c :: rest) = l :: c :: transform rest) := by
  constructor
  · intro t hct hno
    rw [transform_cons_table h]
    have hc : c.data = tblPatL ++ t.data := by
      rw [hct, String.data_append]; rfl
    have hpre : isPrefixL tblPatL c.data = true := by
      rw [hc]; exact isPrefixL_append_self _ _
    have hlen : c.data.length = Nat.succ (12 + t.data.length) := by
      rw [hc, List.length_append]
      have h13 : tblPatL.length = 13 := rfl
      omega
    have hrw : tableRw c = "CREATE TABLE IF NOT EXISTS " ++ t := by
      show (if isPrefixL tblPatL c.data then
          (⟨replF tblPatL tblRepL c.data.length c.data⟩ : String) else c)
        = "CREATE TABLE IF NOT EXISTS " ++ t
      rw [if_pos (by exact hpre), hlen, hc, replF_tbl_head]
      rw [replF_no_occ tblPatL tblRepL _ t.data hno]
      exact mk_eq_append rfl
    rw [hrw]
  · intro hnp
    rw [transform_cons_table h]
    have hnp2 : isPrefixL tblPatL c.data = false := hnp
    have hrw : tableRw c = c := by
      show (if isPrefixL tblPatL c.data then
          (⟨replF tblPatL tblRepL c.data.length c.data⟩ : String) else c) = c
      rw [if_neg (by simp [hnp2])]
    rw [hrw]

/-- C5 witness: concrete instances of both branches of the amended
table rule. -/
theorem c5_table_rewrite_witness :
    transform ["-- CreateTable", "CREATE TABLE \"A\" (\"i\" INT);"]
        = ["-- CreateTable", "CREATE TABLE IF NOT EXISTS \"A\" (\"i\" INT);"] ∧
      transform ["-- CreateTable", "ALTER TABLE \"A\";"]
        = ["-- CreateTable", "ALTER TABLE \"A\";"] := by
  constructor
  · exact (c5_table_rewrite "-- CreateTable" "CREATE TABLE \"A\" (\"i\" INT);" []
      (by decide)).1 "\"A\" (\"i\" INT);" (by decide) (by decide)
  · exact (c5_table_rewrite "-- CreateTable" "ALTER TABLE \"A\";" []
      (by decide)).2 (by decide)

/-! ### Claim C6 -/

set_option maxRecDepth 20000 in
/-- C6 (counterexample): an index line whose `-- CreateIndex` marker
was itself consumed as the lookahead of an earlier marker is never
inspected by the index rule, so no `IF NOT EXISTS` is inserted even
though the line immediately follows a `-- CreateIndex` line. -/
theorem c6_shadowed_index_marker :
    transform ["-- CreateTable", "-- CreateIndex", "CREATE INDEX \"i\" ON \"t\"(\"c\");"]
        = ["-- CreateTable", "-- CreateIndex", "CREATE INDEX \"i\" ON \"t\"(\"c\");"] ∧
      "CREATE INDEX IF NOT EXISTS \"i\" ON \"t\"(\"c\");"
        ∉ transform ["-- CreateTable", "-- CreateIndex", "CREATE INDEX \"i\" ON \"t\"(\"c\");"] := by
  exact ⟨by decide, by decide⟩

/-- C6 (amended): when a `-- CreateIndex` marker line is scanned
directly, a following line starting with `CREATE UNIQUE INDEX ` or
`CREATE INDEX ` has `IF NOT EXISTS ` inserted after the `INDEX `
keyword (preserving the `UNIQUE` qualifier), with the remainder
unchanged provided it contains no further occurrence of either phrase
(the code substitutes every occurrence); a following line containing
neither phrase is emitted unchanged. -/
theorem c6_index_rewrite (l c : String) (rest : List String)
    (h : pyStripL l.toList = idxMarkL) :
    (∀ t : String, c = "CREATE UNIQUE INDEX " ++ t →
        hasSubL uIdxL t.toList = false → hasSubL pIdxL t.toList = false →
        transform (l :: c :: rest)
          = l :: ("CREATE UNIQUE INDEX IF NOT EXISTS " ++ t) :: transform rest) ∧
    (∀ t : String, c = "CREATE INDEX " ++ t →
        hasSubL uIdxL t.toList = false → hasSubL pIdxL t.toList = false →
        transform (l :: c :: rest)
          = l :: ("CREATE INDEX IF NOT EXISTS " ++ t) :: transform rest) ∧
    (hasSubL pIdxL c.toList = false → hasSubL uIdxL c.toList = false →
        transform (l :: c :: rest) = l :: c :: transform rest) := by
  refine ⟨?_, ?_, ?_⟩
  · intro t hct hu hp
    rw [transform_cons_idx h]
    have hc : c.data = uIdxL ++ t.data := by
      rw [hct, String.data_append]; rfl
    have htrig : (hasSubL pIdxL c.data || hasSubL uIdxL c.data) = true := by
      have : hasSubL uIdxL c.data = true := by
        rw [hc]; exact hasSubL_of_isPrefixL (isPrefixL_append_self _ _)
      rw [this, Bool.or_true]
    have hlen : c.data.length = Nat.succ (19 + t.data.length) := by
      rw [hc, List.length_append]
      have h20 : uIdxL.length = 20 := rfl
      omega
    have hrw : idxRw c = "CREATE UNIQUE INDEX IF NOT EXISTS " ++ t := by
      show (if hasSubL pIdxL c.data || hasSubL uIdxL c.data then
          (⟨subIdxF c.data.length c.data⟩ : String) else c)
        = "CREATE UNIQUE INDEX IF NOT EXISTS " ++ t
      rw [if_pos (by simp [htrig]), hlen, hc, subIdxF_uniq_head]
      rw [subIdxF_no_occ _ t.data hu hp]
      exact mk_eq_append rfl
    rw [hrw]
  · intro t hct hu hp
    rw [transform_cons_idx h]
    have hc : c.data = pIdxL ++ t.data := by
      rw [hct, String.data_append]; rfl
    have htrig : (hasSubL pIdxL c.data || hasSubL uIdxL c.data) = true := by
      have : hasSubL pIdxL c.data = true := by
        rw [hc]; exact hasSubL_of_isPrefixL (isPrefixL_append_self _ _)
      rw [this, Bool.true_or]
    have hlen : c.data.length = Nat.succ (12 + t.data.length) := by
      rw [hc, List.length_append]
      have h13 : pIdxL.length = 13 := rfl
      omega
    have hrw : idxRw c = "CREATE INDEX IF NOT EXISTS " ++ t := by
      show (if hasSubL pIdxL c.data || hasSubL uIdxL c.data then
          (⟨subIdxF c.data.length c.data⟩ : String) else c)
        = "CREATE INDEX IF NOT EXISTS " ++ t
      rw [if_pos (by simp [htrig]), hlen, hc, subIdxF_plain_head]
      rw [subIdxF_no_occ _ t.data hu hp]
      exact mk_eq_append rfl
    rw [hrw]
  · intro hp hu
    rw [transform_cons_idx h]
    have hp2 : hasSubL pIdxL c.data = false := hp
    have hu2 : hasSubL uIdxL c.data = false := hu
    have hrw : idxRw c = c := by
      show (if hasSubL pIdxL c.data || hasSubL uIdxL c.data then
          (⟨subIdxF c.data.length c.data⟩ : String) else c) = c
      rw [if_neg (by simp [hp2, hu2])]
    rw [hrw]

/-- C6 witness: concrete instances of the three branches of the
amended index rule. -/
theorem c6_index_rewrite_witness :
    transform ["-- CreateIndex", "CREATE UNIQUE INDEX \"k\" ON \"U\"(\"e\");"]
        = ["-- CreateIndex", "CREATE UNIQUE INDEX IF NOT EXISTS \"k\" ON \"U\"(\"e\");"] ∧
      transform ["-- CreateIndex", "CREATE INDEX \"j\" ON \"U\"(\"f\");"]
        = ["-- CreateIndex", "CREATE INDEX IF NOT EXISTS \"j\" ON \"U\"(\"f\");"] ∧
      transform ["-- CreateIndex", "DROP INDEX \"k\";"]
        = ["-- CreateIndex", "DROP INDEX \"k\";"] := by
  refine ⟨?_, ?_, ?_⟩
  · exact (c6_index_rewrite "-- CreateIndex" "CREATE UNIQUE INDEX \"k\" ON \"U\"(\"e\");" []
      (by decide)).1 "\"k\" ON \"U\"(\"e\");" (by decide) (by decide) (by decide)
  · exact (c6_index_rewrite "-- CreateIndex" "CREATE INDEX \"j\" ON \"U\"(\"f\");" []
      (by decide)).2.1 "\"j\" ON \"U\"(\"f\");" (by decide) (by decide) (by decide)
  · exact (c6_index_rewrite "-- CreateIndex" "DROP INDEX \"k\";" []
      (by decide)).2.2 (by decide) (by decide)

/-! ### Claim C7 -/

set_option maxRecDepth 20000 in
/-- C7 (counterexample): a `CREATE EXTENSION ` line immediately after
a `-- CreateTable` marker is consumed by the table rule's lookahead
and emitted unchanged — the extension rewrite does NOT apply to every
such line regardless of position. -/
theorem c7_extension_line_shadowed :
    transform ["-- CreateTable", "CREATE EXTENSION hstore;"]
        = ["-- CreateTable", "CREATE EXTENSION hstore;"] ∧
      "CREATE EXTENSION IF NOT EXISTS hstore;"
        ∉ transform ["-- CreateTable", "CREATE EXTENSION hstore;"] := by
  exact ⟨by decide, by decide⟩

/-- C7 (amended): every line whose trimmed form starts with
`CREATE EXTENSION ` and which is scanned directly by the cursor (not
consumed as the lookahead of a `-- CreateTable` / `-- CreateIndex`
rule) is emitted with `CREATE EXTENSION ` replaced by
`CREATE EXTENSION IF NOT EXISTS `; the remainder is unchanged when it
contains no further occurrence of the phrase (the code replaces every
occurrence). -/
theorem c7_extension_rewrite (l : String) (rest : List String)
    (h : isPrefixL extPatL (pyStripL l.toList) = true) :
    transform (l :: rest) = extRw l :: transform rest ∧
    (∀ t : String, l = "CREATE EXTENSION " ++ t → hasSubL extPatL t.toList = false →
        extRw l = "CREATE EXTENSION IF NOT EXISTS " ++ t) := by
  constructor
  · exact transform_cons_ext h
  · intro t hlt hno
    have hl : l.data = extPatL ++ t.data := by
      rw [hlt, String.data_append]; rfl
    have hlen : l.data.length = Nat.succ (16 + t.data.length) := by
      rw [hl, List.length_append]
      have h17 : extPatL.length = 17 := rfl
      omega
    show (⟨replF extPatL extRepL l.data.length l.data⟩ : String)
      = "CREATE EXTENSION IF NOT EXISTS " ++ t
    rw [hlen, hl, replF_ext_head]
    rw [replF_no_occ extPatL extRepL _ t.data hno]
    exact mk_eq_append rfl

/-- C7 witness: a directly scanned `CREATE EXTENSION ` line is
rewritten. -/
theorem c7_extension_rewrite_witness :
    transform ["CREATE EXTENSION citext;", "SELECT 1;"]
        = "CREATE EXTENSION IF NOT EXISTS citext;" :: transform ["SELECT 1;"] ∧
      extRw "CREATE EXTENSION citext;" = "CREATE EXTENSION IF NOT EXISTS citext;" := by
  have h := c7_extension_rewrite "CREATE EXTENSION citext;" ["SELECT 1;"] (by decide)
  have h2 : extRw "CREATE EXTENSION citext;" = "CREATE EXTENSION IF NOT EXISTS citext;" :=
    h.2 "citext;" (by decide) (by decide)
  exact ⟨h2 ▸ h.1, h2⟩

/-! ### Claim C8 -/

/-- C8: replaying the scanning loop through the index-based model — in
which every read of the line sequence goes through `lines[i]?` and an
out-of-range read aborts the run with `none` — always succeeds and
produces exactly the lines of `transform`.  In particular, for inputs
ending in a bare marker line the `i < len(lines)` guards prevent any
out-of-bounds access and the run completes. -/
theorem c8_no_out_of_bounds_access (lines : List String) :
    runFrom lines lines.length 0 = some (transform lines) := by
  have h := runFrom_eq lines lines.length 0 (by omega)
  simpa using h

/-! ### Claim C9 -/

set_option maxRecDepth 20000 in
/-- C9 (counterexample): on the empty input the script prints
`Lines: 2` — the output buffer has two elements (the multi-line header
plus one empty line) — but the text written to the output file has 9
lines, so the printed count is not the number of lines written. -/
theorem c9_count_is_buffer_elements_not_file_lines :
    stdoutLines ""
        = [ "Transformation complete: /tmp/baseline-repair-idempotent.sql"
          , "Lines: 2" ] ∧
      (splitNl (fileText "")).length = 9 := by
  exact ⟨by decide, by decide⟩

/-- C9 (amended): after a successful run exactly two status lines are
written to standard output: a completion message naming the output
path, and a count equal to the number of ELEMENTS of the output buffer
— one more than the number of lines produced by the transformation,
with the multi-line header counting as a single element — which is not
in general the number of text lines in the output file. -/
theorem c9_stdout_lines (content : String) :
    stdoutLines content
      = [ "Transformation complete: " ++ outPath
        , "Lines: " ++ Nat.repr ((transform (splitNl content)).length + 1) ] := by
  simp [stdoutLines, outputList]

/-! ### Claim C10 -/

/-- C10: the transformation is deterministic — a run is a pure
function of the input file content, so two runs on identical content
produce identical output file text and identical status lines. -/
theorem c10_deterministic (c₁ c₂ : String) (h : c₁ = c₂) :
    runModel c₁ = runModel c₂ := by rw [h]

/-- C10 witness: determinism at a concrete input. -/
theorem c10_deterministic_witness :
    runModel "-- CreateTable\nCREATE TABLE \"T\" (\"i\" INT);"
      = runModel "-- CreateTable\nCREATE TABLE \"T\" (\"i\" INT);" :=
  c10_deterministic "-- CreateTable\nCREATE TABLE \"T\" (\"i\" INT);"
    "-- CreateTable\nCREATE TABLE \"T\" (\"i\" INT);" rfl

end BaselineTransform
